import Mathlib

/-!
Verification of the ServerGUI core logic (src/main.py): a shallow embedding
of the process-supervisor and plugin-installer functions, and theorems
settling the specification claims about them.

Conventions of the embedding:
* Python strings are Lean `String`; Python string truthiness (`not s`) is
  the test `s == ""`.
* The filesystem is a list of existing paths; `os.path.exists` is
  membership.
* POSIX path semantics: `os.path.isabs p` is `p.startsWith "/"`, and
  `os.path.join` follows the POSIX rules for a relative second component.
* Fallible/branching code returns an explicit outcome type instead of
  performing I/O; the bytes a function writes to the child process's
  stdin are returned as an `Option String` (`none` when nothing is
  written).
-/

namespace ServerGUI

/-- POSIX model of os.path.isabs: a path is absolute iff it starts with a slash. -/
def os_isabs (p : String) : Bool := p.data.head? == some '/'

/-- Whether a path already ends with the POSIX separator. -/
def ends_with_sep (p : String) : Bool := p.data.getLast? == some '/'

/-- POSIX model of os.path.join a b (and of pathlib's slash operator) for the
cases the program exercises: if b is absolute it replaces a; otherwise b is
appended to a with a separator inserted unless a is empty or already ends
with one. -/
def os_path_join (a b : String) : String :=
  if os_isabs b then b
  else if a == "" then b
  else if ends_with_sep a then a ++ b
  else a ++ "/" ++ b

/-- Model of Python str.strip with no argument: remove leading and trailing
whitespace characters. -/
def py_strip (s : String) : String :=
  ⟨((s.data.dropWhile Char.isWhitespace).reverse.dropWhile Char.isWhitespace).reverse⟩

/-! ## Configuration persistence (save_config / load_config, src/main.py lines 899-931) -/

/-- The six-field configuration record held by the GUI (all values are
strings, mirroring the tk.StringVar fields). -/
structure Config where
  server_jar : String
  server_memory : String
  server_dir : String
  plugins_dir : String
  server_type : String
  server_version : String
deriving DecidableEq, Repr

/-- Embedding of save_config (src/main.py lines 899-915): the JSON object
written to server_config.json, as an association list of the six keys to the
current field values. -/
def save_config (c : Config) : List (String × String) :=
  [ ("server_jar", c.server_jar)
  , ("server_memory", c.server_memory)
  , ("server_dir", c.server_dir)
  , ("plugins_dir", c.plugins_dir)
  , ("server_type", c.server_type)
  , ("server_version", c.server_version) ]

/-- Embedding of dict.get(key, default) on a parsed JSON object: the value at
the first occurrence of the key, if any. -/
def config_lookup (record : List (String × String)) (k : String) : Option String :=
  (record.find? (fun p => p.1 == k)).map (fun p => p.2)

/-- Embedding of load_config (src/main.py lines 917-931): each field is read
from the record with dict.get and a fixed default; cwd stands for
os.getcwd() at program start. -/
def load_config (cwd : String) (record : List (String × String)) : Config :=
  { server_jar := (config_lookup record "server_jar").getD "server.jar"
  , server_memory := (config_lookup record "server_memory").getD "2048"
  , server_dir := (config_lookup record "server_dir").getD cwd
  , plugins_dir := (config_lookup record "plugins_dir").getD (os_path_join cwd "plugins")
  , server_type := (config_lookup record "server_type").getD "paper"
  , server_version := (config_lookup record "server_version").getD "1.21.4" }

/-- A record with one key removed, used to state the missing-key behaviour of
load_config. -/
def record_without (r : List (String × String)) (k : String) : List (String × String) :=
  r.filter (fun p => p.1 != k)

/-! ## Server supervisor (run_server / send_command / stop_server, src/main.py lines 359-484) -/

/-- Supervisor state visible to run_server: the server_running flag, plus a
count of processes spawned so far so that claims about spawning can be
stated. -/
structure ServerState where
  server_running : Bool
  spawned : Nat
deriving DecidableEq, Repr

/-- Outcome of run_server: the warning dialog for a running server, the
error dialog for a missing jar (carrying the resolved path), or a started
process (carrying the java command line). -/
inductive StartResult where
  | alreadyRunning
  | notFound (path : String)
  | started (cmd : List String)
deriving DecidableEq, Repr

/-- The java command line built by run_server (src/main.py lines 376-383). -/
def java_cmd (memory jar_path : String) : List String :=
  ["java", "-Xmx" ++ memory ++ "M", "-Xms" ++ memory ++ "M", "-jar", jar_path, "nogui"]

/-- Resolution of the configured jar path (src/main.py lines 365-367): a
relative path is joined onto the server directory. -/
def resolve_jar_path (server_dir server_jar : String) : String :=
  if os_isabs server_jar then server_jar else os_path_join server_dir server_jar

/-- Embedding of run_server (src/main.py lines 359-395): reject when already
running, resolve the jar path, reject when the resolved path does not exist
on the filesystem fs, otherwise spawn the process (spawned counter up by
one) and set server_running. -/
def run_server (st : ServerState) (fs : List String)
    (server_dir server_jar memory : String) : StartResult × ServerState :=
  if st.server_running then (.alreadyRunning, st)
  else
    let jar_path := resolve_jar_path server_dir server_jar
    if !fs.contains jar_path then (.notFound jar_path, st)
    else (.started (java_cmd memory jar_path),
          { server_running := true, spawned := st.spawned + 1 })

/-- Embedding of send_command (src/main.py lines 467-484): returns the bytes
written (and flushed) to the child's stdin, or none when nothing is written.
The entry text is stripped first; a whitespace-only entry sends nothing. -/
def send_command (running has_process : Bool) (entry_text : String) : Option String :=
  if !running || !has_process then none
  else
    let command := py_strip entry_text
    if command == "" then none
    else some (command ++ "\n")

/-- The graceful-stop deadline passed to Popen.wait (src/main.py line 440). -/
def stop_grace_period : Nat := 30

/-- Abstract behaviour of the child process during stop_server: whether
writing the stop line raises, when (if ever) the process exits on its own,
and whether Popen.terminate raises. -/
structure StopProcBehavior where
  writeRaises : Bool
  exitTime : Option Nat
  terminateRaises : Bool
deriving DecidableEq, Repr

/-- Whether the process exits on its own within n time-units (so that
Popen.wait with that timeout returns instead of raising TimeoutExpired). -/
def exits_within (b : StopProcBehavior) (n : Nat) : Bool :=
  match b.exitTime with
  | some t => t ≤ n
  | none => false

/-- How stop_server ends. raisedFromTerminate records an exception raised by
Popen.terminate inside the TimeoutExpired handler: in Python an exception
raised inside an except block is not caught by a sibling except clause of
the same try, so it propagates out of stop_server to the caller.
errorReported is the except-Exception branch (logged and shown in a dialog,
not re-raised). -/
inductive StopOutcome where
  | notRunning
  | graceful
  | terminated
  | raisedFromTerminate
  | errorReported
deriving DecidableEq, Repr

/-- Embedding of stop_server (src/main.py lines 427-448): the bytes written
to stdin (none when nothing reaches the write or it raises) and the outcome.
Control flow: warn if not running; write "stop" plus newline and flush; wait
up to stop_grace_period; on TimeoutExpired call terminate, whose own
exception propagates; any other exception from the try body is reported. -/
def stop_server (running has_process : Bool) (b : StopProcBehavior) :
    Option String × StopOutcome :=
  if !running || !has_process then (none, .notRunning)
  else if b.writeRaises then (none, .errorReported)
  else if exits_within b stop_grace_period then (some "stop\n", .graceful)
  else if b.terminateRaises then (some "stop\n", .raisedFromTerminate)
  else (some "stop\n", .terminated)

/-! ## Plugin search (search_plugins / _search_plugins_thread, src/main.py lines 510-618) -/

/-- A raw hit of the Modrinth search response, with the fields the program
reads via dict.get. -/
structure SearchHit where
  project_id : String
  title : String
  author : String
  downloads : Nat
  latest_version : String
  slug : String
  description : String
  game_versions : List String
deriving DecidableEq, Repr

/-- The per-plugin record stored into plugins_data by the search thread
(src/main.py lines 589-596). -/
structure PluginSummary where
  title : String
  project_id : String
  slug : String
  description : String
  compatible : Bool
  game_versions : List String
deriving DecidableEq, Repr

/-- Embedding of the per-hit body of the search loop (src/main.py lines
574-596); the compatibility test on line 586 is
(not server_version or server_version in game_versions or not game_versions). -/
def process_hit (server_version : String) (h : SearchHit) : PluginSummary :=
  { title := h.title
  , project_id := h.project_id
  , slug := h.slug
  , description := h.description
  , compatible :=
      (server_version == "") || h.game_versions.contains server_version
        || h.game_versions.isEmpty
  , game_versions := h.game_versions }

/-- The Modrinth search endpoint (src/main.py line 535). -/
def modrinth_search_url : String := "https://api.modrinth.com/v2/search"

/-- An outgoing HTTP GET request: url plus query parameters. -/
structure HttpRequest where
  url : String
  params : List (String × String)
deriving DecidableEq, Repr

/-- The catalog search request built by the search thread (src/main.py lines
556-562): query text, the project_type:plugin facet, and a limit of 20. -/
def search_request (query : String) : HttpRequest :=
  { url := modrinth_search_url
  , params :=
      [ ("query", query)
      , ("facets", "[[\x22project_type:plugin\x22]]")
      , ("limit", "20") ] }

/-- How search_plugins begins: either the empty-query warning, or a spawned
worker thread that will issue the catalog request. -/
inductive SearchStart where
  | emptyQuery
  | searchThread (req : HttpRequest)
deriving DecidableEq, Repr

/-- Embedding of search_plugins (src/main.py lines 510-524) together with the
network calls the flow it starts will issue: the entry text is stripped; an
empty result shows the warning and issues no request; otherwise the worker
thread performs exactly one catalog GET. -/
def search_plugins (entry_text : String) : SearchStart × List HttpRequest :=
  let query := py_strip entry_text
  if query == "" then (.emptyQuery, [])
  else (.searchThread (search_request query), [search_request query])

/-! ## Version resolution and download (_install_plugin_thread, src/main.py lines 759-853) -/

/-- One entry of a version's files array, with url and filename read via
dict.get (either key may be absent). -/
structure FileEntry where
  url : Option String
  filename : Option String
deriving DecidableEq, Repr

/-- One entry of the catalog's version listing, with the fields the install
thread reads. -/
structure VersionEntry where
  game_versions : List String
  loaders : List String
  files : List FileEntry
deriving DecidableEq, Repr

/-- Embedding of version_matches (src/main.py line 800):
(not server_version or server_version in version_game_versions). -/
def version_matches (server_version : String) (v : VersionEntry) : Bool :=
  (server_version == "") || v.game_versions.contains server_version

/-- Embedding of loader_matches (src/main.py line 801):
(not server_type or server_type in version_loaders or not version_loaders).
The source computes this value but never reads it afterwards. -/
def loader_matches (server_type : String) (v : VersionEntry) : Bool :=
  (server_type == "") || v.loaders.contains server_type || v.loaders.isEmpty

/-- The specification's selection rule, for comparison with the code's
selection: an entry qualifies when it matches the requested game version and
its loader set admits the server type. Stated as the conjunction of the two
predicates the source computes on lines 800-801. -/
def spec_selection_rule (server_version server_type : String) (v : VersionEntry) : Bool :=
  version_matches server_version v && loader_matches server_type v

/-- The two version lists the catalog can return for a project: the response
to the fetch filtered by the requested game version, and the response to the
unfiltered fetch. -/
structure VersionCatalog where
  filtered : List VersionEntry
  unfiltered : List VersionEntry
deriving DecidableEq, Repr

/-- Embedding of the fetch logic (src/main.py lines 770-787): when a game
version is set the filtered fetch is issued first and, if it returns no
entries, the unfiltered fetch is issued; with no game version the single
fetch is unfiltered. -/
def fetch_versions (server_version : String) (cat : VersionCatalog) : List VersionEntry :=
  if server_version == "" then cat.unfiltered
  else if cat.filtered.isEmpty then cat.unfiltered
  else cat.filtered

/-- Result of the selection step: the no-versions error dialog, a version
selected by the loop (logged as compatible), or the fallback to the first
entry (logged as the non-exact latest). -/
inductive ResolveResult where
  | noVersions
  | exact (v : VersionEntry)
  | fallbackLatest (v : VersionEntry)
deriving DecidableEq, Repr

/-- Embedding of the selection step (src/main.py lines 789-811): error when
the list is empty; otherwise the loop breaks on the first entry for which
version_matches holds (loader_matches is computed but not consulted); when
no entry matches, versions[0] is used and flagged non-exact. -/
def select_version (server_version : String) (versions : List VersionEntry) : ResolveResult :=
  if versions.isEmpty then .noVersions
  else
    match versions.find? (fun v => version_matches server_version v) with
    | some v => .exact v
    | none =>
      match versions with
      | [] => .noVersions
      | v :: _ => .fallbackLatest v

/-- The full resolution pipeline of the install thread: fetch the version
list, then select an entry. -/
def resolve_version (server_version : String) (cat : VersionCatalog) : ResolveResult :=
  select_version server_version (fetch_versions server_version cat)

/-- Embedding of the download step (src/main.py lines 816-840): none models
the no-downloadable-files error; otherwise the first file is used, its url is
fetched, and the body is written to the plugins directory under the file's
filename, defaulting to project_id plus a .jar suffix when the filename key
is absent. -/
def install_download_step (plugins_dir project_id : String) (files : List FileEntry) :
    Option (Option String × String) :=
  match files with
  | [] => none
  | f :: _ =>
      some (f.url, os_path_join plugins_dir (f.filename.getD (project_id ++ ".jar")))

end ServerGUI

namespace ServerGUI

/-- C9: saving the configuration and then loading it restores exactly the six
fields server_jar, server_memory, server_dir, plugins_dir, server_type,
server_version to their saved values, and loading a record missing any one of
these keys sets exactly that field to its fixed default value. -/
theorem save_load_round_trip (c : Config) (cwd : String) :
    load_config cwd (save_config c) = c ∧
    load_config cwd [] =
      { server_jar := "server.jar", server_memory := "2048", server_dir := cwd
      , plugins_dir := os_path_join cwd "plugins", server_type := "paper"
      , server_version := "1.21.4" } ∧
    load_config cwd (record_without (save_config c) "server_jar") =
      { c with server_jar := "server.jar" } ∧
    load_config cwd (record_without (save_config c) "server_memory") =
      { c with server_memory := "2048" } ∧
    load_config cwd (record_without (save_config c) "server_dir") =
      { c with server_dir := cwd } ∧
    load_config cwd (record_without (save_config c) "plugins_dir") =
      { c with plugins_dir := os_path_join cwd "plugins" } ∧
    load_config cwd (record_without (save_config c) "server_type") =
      { c with server_type := "paper" } ∧
    load_config cwd (record_without (save_config c) "server_version") =
      { c with server_version := "1.21.4" } := by
  refine ⟨rfl, rfl, rfl, rfl, rfl, rfl, rfl, rfl⟩

/-- C4: for every configuration whose executable path (relative paths
resolved against the configured working directory) does not exist on the
filesystem, run_server fails with the jar-not-found error, spawns no
process, and the state remains Stopped (the state, including the spawn
counter, is returned unchanged). -/
theorem run_server_missing_jar (st : ServerState) (fs : List String)
    (dir jar mem : String)
    (hstop : st.server_running = false)
    (hmiss : fs.contains (resolve_jar_path dir jar) = false) :
    run_server st fs dir jar mem = (.notFound (resolve_jar_path dir jar), st) := by
  have h2 : resolve_jar_path dir jar ∉ fs := by simpa using hmiss
  simp [run_server, hstop, h2]

/-- Witness for run_server_missing_jar at a concrete stopped state, empty
filesystem and relative jar path. -/
theorem run_server_missing_jar_witness :
    (⟨false, 0⟩ : ServerState).server_running = false ∧
    ([] : List String).contains (resolve_jar_path "/srv" "server.jar") = false ∧
    run_server ⟨false, 0⟩ [] "/srv" "server.jar" "2048"
      = (.notFound (resolve_jar_path "/srv" "server.jar"), ⟨false, 0⟩) :=
  ⟨rfl, rfl, run_server_missing_jar ⟨false, 0⟩ [] "/srv" "server.jar" "2048" rfl rfl⟩

/-- C5: at most one server handle is active at a time. Calling run_server
while the state is not Stopped fails with alreadyRunning, spawns no second
process and leaves the state untouched; and from a Stopped state with an
existing jar, the first call starts exactly one process while an immediate
second call is rejected and changes nothing, so exactly one logical run
exists after both calls. -/
theorem run_server_single_instance (st : ServerState) (fs : List String)
    (dir jar mem : String) :
    (st.server_running = true → run_server st fs dir jar mem = (.alreadyRunning, st)) ∧
    (st.server_running = false → fs.contains (resolve_jar_path dir jar) = true →
      (run_server st fs dir jar mem).1
          = .started (java_cmd mem (resolve_jar_path dir jar)) ∧
      (run_server st fs dir jar mem).2.server_running = true ∧
      (run_server st fs dir jar mem).2.spawned = st.spawned + 1 ∧
      run_server (run_server st fs dir jar mem).2 fs dir jar mem
          = (.alreadyRunning, (run_server st fs dir jar mem).2)) := by
  constructor
  · intro h
    simp [run_server, h]
  · intro h hex
    have h2 : resolve_jar_path dir jar ∈ fs := by simpa using hex
    simp [run_server, h, h2]

/-- Witness for run_server_single_instance: two immediate start calls from a
concrete stopped state with the jar present; the second is rejected and the
spawn counter shows exactly one spawned process. -/
theorem run_server_single_instance_witness :
    (⟨false, 0⟩ : ServerState).server_running = false ∧
    (["/srv/server.jar"].contains (resolve_jar_path "/srv" "server.jar") = true) ∧
    ((run_server ⟨false, 0⟩ ["/srv/server.jar"] "/srv" "server.jar" "2048").2.spawned = 0 + 1 ∧
      run_server (run_server ⟨false, 0⟩ ["/srv/server.jar"] "/srv" "server.jar" "2048").2
          ["/srv/server.jar"] "/srv" "server.jar" "2048"
        = (.alreadyRunning,
           (run_server ⟨false, 0⟩ ["/srv/server.jar"] "/srv" "server.jar" "2048").2)) := by
  have h := (run_server_single_instance ⟨false, 0⟩ ["/srv/server.jar"]
      "/srv" "server.jar" "2048").2 rfl rfl
  exact ⟨rfl, rfl, h.2.2.1, h.2.2.2⟩

/-- C2 counterexample: send_command does not append the given text byte for
byte; an entry with surrounding whitespace is stripped before the newline is
appended, so characters of the text are removed. -/
theorem send_command_counterexample :
    send_command true true " stop " = some "stop\n" ∧
    some "stop\n" ≠ some (" stop " ++ "\n") := by
  refine ⟨rfl, by decide⟩

/-- C2 amended: for a Running server, send_command first strips leading and
trailing whitespace from the entry text; when the stripped text is non-empty
it appends exactly the stripped text followed by exactly one newline (so for
text already equal to its stripped form the append is byte for byte), and a
whitespace-only entry writes nothing. -/
theorem send_command_strips_then_appends (entry : String) :
    (py_strip entry ≠ "" → send_command true true entry = some (py_strip entry ++ "\n")) ∧
    (py_strip entry = entry → entry ≠ "" → send_command true true entry = some (entry ++ "\n")) ∧
    (py_strip entry = "" → send_command true true entry = none) := by
  refine ⟨fun h => ?_, fun hs h => ?_, fun h => ?_⟩
  · simp [send_command, h]
  · rw [show send_command true true entry
        = (if py_strip entry == "" then none else some (py_strip entry ++ "\n")) from rfl,
      hs]
    simp [h]
  · simp [send_command, h]

/-- Witness for send_command_strips_then_appends at a concrete entry text. -/
theorem send_command_strips_then_appends_witness :
    py_strip "say hello" ≠ "" ∧
    send_command true true "say hello" = some (py_strip "say hello" ++ "\n") :=
  ⟨by decide, (send_command_strips_then_appends "say hello").1 (by decide)⟩

/-- C3 counterexample: for a running server whose process never exits on its
own and whose terminate call raises, stop_server writes the stop line and
then the exception raised during forced termination propagates to the
caller (outcome raisedFromTerminate) instead of being reported. -/
theorem stop_server_counterexample :
    stop_server true true ⟨false, none, true⟩ = (some "stop\n", .raisedFromTerminate) ∧
    StopOutcome.raisedFromTerminate ≠ StopOutcome.errorReported := by
  refine ⟨rfl, by decide⟩

/-- C3 amended: stop_server on a Running server writes the literal line
"stop" to the process's stdin, waits up to stop_grace_period (30 time-units)
for a voluntary exit, and forcibly terminates on deadline; an exception
raised while sending the stop line or waiting is reported and not
propagated, but an exception raised by the forced termination itself
propagates to the caller. -/
theorem stop_server_behaviour (b : StopProcBehavior) :
    (b.writeRaises = false → (stop_server true true b).1 = some "stop\n") ∧
    (b.writeRaises = false → exits_within b stop_grace_period = true →
      (stop_server true true b).2 = .graceful) ∧
    (b.writeRaises = false → exits_within b stop_grace_period = false →
      b.terminateRaises = false → (stop_server true true b).2 = .terminated) ∧
    (b.writeRaises = false → exits_within b stop_grace_period = false →
      b.terminateRaises = true → (stop_server true true b).2 = .raisedFromTerminate) ∧
    (b.writeRaises = true → (stop_server true true b).2 = .errorReported) ∧
    stop_grace_period = 30 := by
  refine ⟨fun hw => ?_, fun hw he => ?_, fun hw he ht => ?_, fun hw he ht => ?_,
    fun hw => ?_, rfl⟩
  · by_cases he : exits_within b stop_grace_period <;>
      by_cases ht : b.terminateRaises <;> simp [stop_server, hw, he, ht]
  · simp [stop_server, hw, he]
  · simp [stop_server, hw, he, ht]
  · simp [stop_server, hw, he, ht]
  · simp [stop_server, hw]

/-- Witness for stop_server_behaviour: a process that exits 5 time-units
after the stop line is sent is waited for and stops gracefully. -/
theorem stop_server_behaviour_witness :
    (⟨false, some 5, false⟩ : StopProcBehavior).writeRaises = false ∧
    exits_within ⟨false, some 5, false⟩ stop_grace_period = true ∧
    (stop_server true true ⟨false, some 5, false⟩).2 = .graceful :=
  ⟨rfl, by decide, (stop_server_behaviour ⟨false, some 5, false⟩).2.1 rfl (by decide)⟩

/-- C6: for every raw search hit and requested game version, the computed
compatible flag equals: the requested version is empty, or it is a member of
the hit's declared game-version list, or that list is empty; in particular a
hit declaring only 1.20.1 is incompatible with a requested 1.21.4, and a hit
declaring no versions is compatible. -/
theorem search_compatibility (sv : String) (h : SearchHit) :
    ((process_hit sv h).compatible = true ↔
      (sv = "" ∨ sv ∈ h.game_versions ∨ h.game_versions = [])) ∧
    (process_hit "1.21.4"
        { project_id := "p", title := "t", author := "a", downloads := 3
        , latest_version := "v", slug := "s", description := "d"
        , game_versions := ["1.20.1"] }).compatible = false ∧
    (process_hit "1.21.4"
        { project_id := "p", title := "t", author := "a", downloads := 3
        , latest_version := "v", slug := "s", description := "d"
        , game_versions := [] }).compatible = true := by
  refine ⟨?_, by decide, by decide⟩
  simp [process_hit, List.isEmpty_iff, or_assoc]

/-- Witness for search_compatibility: a hit with an empty declared list is
compatible with the requested version 1.21.4. -/
theorem search_compatibility_witness :
    (process_hit "1.21.4"
        { project_id := "q", title := "u", author := "b", downloads := 0
        , latest_version := "w", slug := "g", description := "e"
        , game_versions := [] }).compatible = true :=
  (search_compatibility "1.21.4"
      { project_id := "q", title := "u", author := "b", downloads := 0
      , latest_version := "w", slug := "g", description := "e"
      , game_versions := [] }).1.mpr (Or.inr (Or.inr rfl))

/-- C7: search_plugins with a query that strips to empty shows the
empty-query warning and issues zero network calls; a non-empty stripped
query spawns the worker thread, which issues exactly one catalog request. -/
theorem search_empty_query (entry : String) :
    (py_strip entry = "" → search_plugins entry = (.emptyQuery, [])) ∧
    (py_strip entry ≠ "" →
      search_plugins entry
        = (.searchThread (search_request (py_strip entry)),
           [search_request (py_strip entry)])) := by
  constructor
  · intro h
    simp [search_plugins, h]
  · intro h
    simp [search_plugins, h]

/-- Witness for search_empty_query: the empty query issues no request. -/
theorem search_empty_query_witness :
    py_strip "" = "" ∧ search_plugins "" = (.emptyQuery, []) :=
  ⟨rfl, (search_empty_query "").1 rfl⟩

/-- Helper: find? returns the element at the first index whose predicate
holds, when every earlier index fails the predicate. -/
theorem find_first_index {α : Type} (p : α → Bool) (l : List α) :
    ∀ (i : Nat) (h : i < l.length), p (l.get ⟨i, h⟩) = true →
      (∀ (j : Nat) (hj : j < l.length), j < i → p (l.get ⟨j, hj⟩) = false) →
      l.find? p = some (l.get ⟨i, h⟩) := by
  induction l with
  | nil => intro i h; exact absurd h (by simp)
  | cons a t ih =>
    intro i h hp hmin
    cases i with
    | zero =>
      simp only [List.get] at hp
      simp [List.find?, hp]
    | succ n =>
      have ha : p a = false := hmin 0 (by simp) (Nat.succ_pos n)
      have h1 : n < t.length := Nat.lt_of_succ_lt_succ h
      have ht := ih n h1 (by simpa using hp)
        (fun j hj hjn => by
          simpa using hmin (j + 1) (by simpa using Nat.succ_lt_succ hj)
            (Nat.succ_lt_succ hjn))
      simp [List.find?, ha, ht]

/-- Helper: selection on a non-empty list never reports the no-versions
error. -/
theorem select_version_ne_noVersions (sv : String) (v : VersionEntry)
    (l : List VersionEntry) : select_version sv (v :: l) ≠ ResolveResult.noVersions := by
  unfold select_version
  cases hf : (v :: l).find? (fun u => version_matches sv u) with
  | none => simp [hf]
  | some w => simp [hf]

/-- Helper: selection reports the no-versions error exactly on the empty
list. -/
theorem select_version_eq_noVersions_iff (sv : String) (l : List VersionEntry) :
    select_version sv l = ResolveResult.noVersions ↔ l = [] := by
  cases l with
  | nil => simp [select_version]
  | cons v t =>
    exact iff_of_false (select_version_ne_noVersions sv v t) (by simp)

/-- C1 counterexample: with requested version 1.21.4 and server type paper,
of two entries only the second satisfies both the game-version and the
loader condition, yet the code selects the first entry (its loader set,
containing only fabric, is never consulted), not the second. -/
theorem resolve_order_counterexample :
    spec_selection_rule "1.21.4" "paper" ⟨["1.21.4"], ["fabric"], []⟩ = false ∧
    spec_selection_rule "1.21.4" "paper" ⟨["1.21.4"], ["paper"], []⟩ = true ∧
    select_version "1.21.4" [⟨["1.21.4"], ["fabric"], []⟩, ⟨["1.21.4"], ["paper"], []⟩]
      = .exact ⟨["1.21.4"], ["fabric"], []⟩ ∧
    (⟨["1.21.4"], ["fabric"], []⟩ : VersionEntry) ≠ ⟨["1.21.4"], ["paper"], []⟩ := by
  refine ⟨by decide, by decide, rfl, by decide⟩

/-- C1 amended: the selection loop picks the first entry in catalog order
whose game-version set contains the requested version (or the requested
version is empty); the loader set plays no part in the choice. -/
theorem resolve_selects_first_game_match (sv : String) (l : List VersionEntry)
    (i : Nat) (h : i < l.length)
    (hp : version_matches sv (l.get ⟨i, h⟩) = true)
    (hmin : ∀ (j : Nat) (hj : j < l.length), j < i →
      version_matches sv (l.get ⟨j, hj⟩) = false) :
    select_version sv l = .exact (l.get ⟨i, h⟩) := by
  have hfind : l.find? (fun v => version_matches sv v) = some (l.get ⟨i, h⟩) :=
    find_first_index (fun v => version_matches sv v) l i h hp hmin
  have hne : l.isEmpty = false := by
    cases l with
    | nil => exact absurd h (by simp)
    | cons a t => rfl
  simp [select_version, hne, hfind]

/-- Witness for resolve_selects_first_game_match: of two entries only the
second contains the requested version, and the second is selected. -/
theorem resolve_selects_first_game_match_witness :
    select_version "1.21.4" [⟨["1.20.1"], [], []⟩, ⟨["1.21.4"], [], []⟩]
      = .exact ⟨["1.21.4"], [], []⟩ := by
  have h := resolve_selects_first_game_match "1.21.4"
    [⟨["1.20.1"], [], []⟩, ⟨["1.21.4"], [], []⟩] 1 (by decide) (by decide)
    (fun j hj hji => by
      have hj0 : j = 0 := Nat.lt_one_iff.mp hji
      subst hj0
      rfl)
  simpa using h

/-- C8 counterexample: a single entry that contains the requested game
version but whose loader set excludes the server type satisfies neither of
the specification's selection conditions, yet the code returns it as an
exact match rather than as the non-exact fallback. -/
theorem resolve_fallback_counterexample :
    spec_selection_rule "1.21.1" "paper" ⟨["1.21.1"], ["forge"], []⟩ = false ∧
    resolve_version "1.21.1"
        ⟨[⟨["1.21.1"], ["forge"], []⟩], [⟨["1.21.1"], ["forge"], []⟩]⟩
      = .exact ⟨["1.21.1"], ["forge"], []⟩ ∧
    ResolveResult.exact (⟨["1.21.1"], ["forge"], []⟩ : VersionEntry)
      ≠ ResolveResult.fallbackLatest ⟨["1.21.1"], ["forge"], []⟩ := by
  refine ⟨by decide, rfl, by decide⟩

/-- C8 amended: with a game version supplied the filtered fetch is used when
non-empty and the unfiltered refetch when it is empty; the no-versions error
occurs exactly when both fetches yield empty lists; and when entries exist
but none contains the requested game version, the first fetched entry is
returned flagged as the non-exact fallback, never an error. -/
theorem resolve_version_fetch_and_fallback (sv : String) (cat : VersionCatalog) :
    (sv ≠ "" → cat.filtered ≠ [] → fetch_versions sv cat = cat.filtered) ∧
    (sv ≠ "" → cat.filtered = [] → fetch_versions sv cat = cat.unfiltered) ∧
    (sv ≠ "" →
      (resolve_version sv cat = .noVersions ↔
        cat.filtered = [] ∧ cat.unfiltered = [])) ∧
    (∀ (v : VersionEntry) (l : List VersionEntry),
      fetch_versions sv cat = v :: l →
      (∀ u, u ∈ v :: l → version_matches sv u = false) →
      resolve_version sv cat = .fallbackLatest v) := by
  refine ⟨fun hs hf => ?_, fun hs hf => ?_, fun hs => ?_, fun v l hfe hall => ?_⟩
  · simp [fetch_versions, hs, hf]
  · simp [fetch_versions, hs, hf]
  · rw [resolve_version, select_version_eq_noVersions_iff]
    rcases hfil : cat.filtered with _ | ⟨f, fs⟩
    · simp [fetch_versions, hs, hfil]
    · simp [fetch_versions, hs, hfil]
  · have hfind : (v :: l).find? (fun u => version_matches sv u) = none :=
      List.find?_eq_none.mpr (fun x hx => by simp [hall x hx])
    rw [resolve_version, hfe]
    simp [select_version, hfind]

/-- Witness for resolve_version_fetch_and_fallback: when both fetches return
empty lists the resolution reports the no-versions error. -/
theorem resolve_version_fetch_and_fallback_witness :
    resolve_version "1.20.4" ⟨[], []⟩ = .noVersions :=
  ((resolve_version_fetch_and_fallback "1.20.4" ⟨[], []⟩).2.2.1
      (by decide)).mpr ⟨rfl, rfl⟩

/-- C10: when the first file entry carries a filename it is written into the
plugins directory under exactly that filename; when the filename field is
absent the fallback name is the project id followed by .jar; a non-empty
files list never fails, so download never fails solely because the catalog
omitted the filename. -/
theorem download_filename_fallback (dir pid : String) (u : Option String)
    (name : String) (rest : List FileEntry) :
    install_download_step dir pid ({ url := u, filename := some name } :: rest)
        = some (u, os_path_join dir name) ∧
    install_download_step dir pid ({ url := u, filename := none } :: rest)
        = some (u, os_path_join dir (pid ++ ".jar")) ∧
    (∀ (f : FileEntry) (l : List FileEntry),
      install_download_step dir pid (f :: l) ≠ none) := by
  refine ⟨rfl, rfl, fun f l => by simp [install_download_step]⟩

/-- Witness for download_filename_fallback: a first file with no filename key
is written under the project-id jar name. -/
theorem download_filename_fallback_witness :
    install_download_step "/srv/plugins" "abc"
        [{ url := some "http://x/f.jar", filename := none }]
      = some (some "http://x/f.jar", os_path_join "/srv/plugins" "abc.jar") :=
  (download_filename_fallback "/srv/plugins" "abc" (some "http://x/f.jar") "zz" []).2.1

end ServerGUI
